import Mathlib

/-!
Verification of the Can-Eat-Not orchestration core (state model, routing
policy, suspension boundary, stage nodes, knowledge lookup) as a shallow
embedding of the Python source (`state.py`, `nodes.py`, `main.py`,
`agents/trainer.py`, `agents/nutritionist.py`, `agents/food_specialist.py`,
`tools/food_db.py`).

Modelling conventions:
- Python strings are Lean `String`; `str.lower()` / `str.strip()` are modelled
  for ASCII text (the only text the keyword sets and tokens use).
- Python `float` arithmetic is modelled over `ℚ`; `round` is Python's
  round-half-to-even.
- Dict keys that may be absent are `Option` fields; Python truthiness of a
  string is `≠ ""`, of a dict is non-emptiness (an empty dict value is
  modelled as `none`).
- LLM replies are oracle parameters, typed by the response schema the prompt
  requests; a `none` oracle models the `except` (exception) path.
- `State` in `state.py` is a plain `TypedDict` with no channel reducers, so
  the executor merge writes every key returned by a node over the stored
  value (framework default last-value semantics); `mergeUpdate` models this.
-/

/-! ## String utilities (ASCII models of `str.lower`, `str.strip`, `in`) -/

def lowerChar (c : Char) : Char :=
  if 65 ≤ c.toNat ∧ c.toNat ≤ 90 then Char.ofNat (c.toNat + 32) else c

def lowerStr (s : String) : String :=
  ⟨s.data.map lowerChar⟩

def isWsChar (c : Char) : Bool :=
  c == ' ' || c == '\t' || c == '\n' || c == '\r'

def stripStr (s : String) : String :=
  ⟨((s.data.dropWhile isWsChar).reverse.dropWhile isWsChar).reverse⟩

/-- Test `listStarts needle hay` : `hay` begins with `needle`. -/
def listStarts : List Char → List Char → Bool
  | [], _ => true
  | _ :: _, [] => false
  | a :: as, b :: bs => a == b && listStarts as bs

/-- Test `listHasSub needle hay` : `needle` occurs contiguously in `hay`
(Python `needle in hay`; the empty needle occurs in everything). -/
def listHasSub (needle : List Char) : List Char → Bool
  | [] => listStarts needle []
  | hay@(_ :: rest) => listStarts needle hay || listHasSub needle rest

/-- Python `needle in hay` on strings. -/
def strIn (needle hay : String) : Bool :=
  listHasSub needle.data hay.data

/-! ## Data model (`state.py`) -/

inductive Role where
  | user | trainer | nutritionist | food_specialist
  deriving DecidableEq, Repr

structure Message where
  role : Role
  content : String
  /-- Wall-clock `datetime.now().isoformat()` is abstracted: wall-clock time is not
  modelled, the field carries no information the claims depend on. -/
  timestamp : Option String
  deriving DecidableEq, Repr

structure UserProfile where
  age : Option Int := none
  sex : Option String := none
  height_cm : Option ℚ := none
  weight_kg : Option ℚ := none
  activity_level : Option String := none
  first_meal : Option Bool := none
  dietary_restrictions : Option String := none
  health_goals : Option String := none
  deriving DecidableEq, Repr

structure NutritionProfile where
  bmi : ℚ
  bmi_class : String
  bmr : ℚ
  tdee : ℚ
  target_calories : Int
  recommended_macros : List (String × ℚ)
  health_assessment : String
  deriving DecidableEq, Repr

structure FoodAnalysis where
  food_item : String
  quantity : String
  calories_per_unit : Int
  total_calories : Int
  macros : List (String × ℚ)
  nutritional_notes : String
  health_impact : String
  deriving DecidableEq, Repr

structure State where
  messages : List Message
  current_user_input : String
  awaiting_user_input : Bool
  user_profile : UserProfile
  profile_complete : Bool
  nutrition_profile : Option NutritionProfile
  food_analysis : Option FoodAnalysis
  current_phase : String
  next_agent : String
  food_request : Option String
  food_request_pending : Bool
  awaiting_food_request : Bool
  final_recommendation : String
  can_eat_verdict : Bool
  session_complete : Bool
  deriving DecidableEq, Repr

/-- The initial state built in `main.py` (`initial_state = State(...)`). -/
def initial_state : State where
  messages := []
  current_user_input := ""
  awaiting_user_input := false
  user_profile := {}
  profile_complete := false
  nutrition_profile := none
  food_analysis := none
  current_phase := "greeting"
  next_agent := "trainer"
  food_request := none
  food_request_pending := false
  awaiting_food_request := false
  final_recommendation := ""
  can_eat_verdict := false
  session_complete := false

/-! ## Partial updates and the executor merge

A node returns a partial mapping of state keys; `none` means the key is not
in the returned dict. `State` declares no reducer annotations, so the
framework merge overwrites each returned key (last value wins). -/

structure Update where
  messages : Option (List Message) := none
  current_user_input : Option String := none
  awaiting_user_input : Option Bool := none
  user_profile : Option UserProfile := none
  profile_complete : Option Bool := none
  nutrition_profile : Option (Option NutritionProfile) := none
  food_analysis : Option (Option FoodAnalysis) := none
  current_phase : Option String := none
  next_agent : Option String := none
  food_request : Option (Option String) := none
  food_request_pending : Option Bool := none
  awaiting_food_request : Option Bool := none
  final_recommendation : Option String := none
  can_eat_verdict : Option Bool := none
  session_complete : Option Bool := none
  deriving DecidableEq, Repr

def mergeUpdate (s : State) (u : Update) : State where
  messages := u.messages.getD s.messages
  current_user_input := u.current_user_input.getD s.current_user_input
  awaiting_user_input := u.awaiting_user_input.getD s.awaiting_user_input
  user_profile := u.user_profile.getD s.user_profile
  profile_complete := u.profile_complete.getD s.profile_complete
  nutrition_profile := u.nutrition_profile.getD s.nutrition_profile
  food_analysis := u.food_analysis.getD s.food_analysis
  current_phase := u.current_phase.getD s.current_phase
  next_agent := u.next_agent.getD s.next_agent
  food_request := u.food_request.getD s.food_request
  food_request_pending := u.food_request_pending.getD s.food_request_pending
  awaiting_food_request := u.awaiting_food_request.getD s.awaiting_food_request
  final_recommendation := u.final_recommendation.getD s.final_recommendation
  can_eat_verdict := u.can_eat_verdict.getD s.can_eat_verdict
  session_complete := u.session_complete.getD s.session_complete

/-! ## `human_node` (`nodes.py` lines 7-54) -/

def exit_tokens : List String := ["exit", "quit", ":q", "bye"]

def consumption_phrases : List String :=
  ["i want to eat", "can i eat", "i\x27m eating", "eating", "i\x27ll eat",
   "let me eat", "should i eat", "is it ok to eat", "can eat", "want to eat"]

def specific_foods : List String :=
  ["apple", "banana", "toast", "cappuccino", "cheese", "ham", "kfc",
   "pizza", "burger", "chicken"]

def numeral_tokens : List String :=
  ["1", "2", "3", "4", "5", "one", "two", "three"]

def has_consumption_intent (user_input : String) : Bool :=
  consumption_phrases.any (fun p => strIn p (lowerStr user_input))

def has_specific_food (user_input : String) : Bool :=
  specific_foods.any (fun f => strIn f (lowerStr user_input))

def numeral_adjacency (user_input : String) : Bool :=
  numeral_tokens.any (fun num =>
    specific_foods.any (fun food =>
      strIn (num ++ " " ++ food) (lowerStr user_input)))

/-- Flag `is_food_request` as computed at `nodes.py` lines 45-46. -/
def is_food_request_input (user_input : String) : Bool :=
  (has_consumption_intent user_input && has_specific_food user_input)
    || numeral_adjacency user_input

/-- The partial update returned by `human_node` for the line read from the
console (`user_input = input(...).strip()` is applied first). -/
def human_node_update (rawInput : String) (state : State) : Update :=
  let user_input := stripStr rawInput
  if exit_tokens.contains (lowerStr user_input) then
    { current_user_input := some user_input
      session_complete := some true
      awaiting_user_input := some false }
  else
    let messages := state.messages ++
      [{ role := Role.user, content := user_input, timestamp := none }]
    let isFood := is_food_request_input user_input
    { messages := some messages
      current_user_input := some user_input
      awaiting_user_input := some false
      food_request := some (if isFood && (state.food_request.getD "") == "" then
          some user_input
        else state.food_request)
      food_request_pending := some (isFood && state.profile_complete) }

def human_step (rawInput : String) (state : State) : State :=
  mergeUpdate state (human_node_update rawInput state)

/-! ## Routing (`nodes.py` lines 57-109, `main.py` lines 36-43) -/

inductive Agent where
  | trainer | nutritionist | food_specialist | human
  deriving DecidableEq, Repr

def meal_planning_keywords : List String :=
  ["meal plan", "diet plan", "nutrition plan", "what should i eat",
   "meal ideas", "diet advice"]

def is_meal_planning_request (user_input_lower : String) : Bool :=
  meal_planning_keywords.any (fun k => strIn k user_input_lower)

/-- Router `determine_next_agent` (`nodes.py` lines 66-109). -/
def determine_next_agent (state : State) : Agent :=
  let profile_complete := state.profile_complete
  let food_request := !((state.food_request.getD "") == "")
  let has_nutrition_profile := state.nutrition_profile.isSome
  let has_food_analysis := state.food_analysis.isSome
  let awaiting_food_request := state.awaiting_food_request
  let user_input := lowerStr state.current_user_input
  if !profile_complete then Agent.trainer
  else if profile_complete && !has_nutrition_profile then Agent.nutritionist
  else if profile_complete && has_nutrition_profile
      && is_meal_planning_request user_input then Agent.nutritionist
  else if profile_complete && has_nutrition_profile && !food_request
      && !awaiting_food_request then Agent.trainer
  else if food_request && !has_food_analysis then Agent.food_specialist
  else if profile_complete && has_nutrition_profile && has_food_analysis
      && state.final_recommendation == "" then Agent.trainer
  else Agent.human

inductive Dest where
  | trainer | nutritionist | food_specialist | human | completion
  deriving DecidableEq, Repr

def agentDest : Agent → Dest
  | Agent.trainer => Dest.trainer
  | Agent.nutritionist => Dest.nutritionist
  | Agent.food_specialist => Dest.food_specialist
  | Agent.human => Dest.human

/-- Edge `after_trainer` (`main.py` lines 36-43): the conditional edge that runs
after the trainer node and implements the suspension / completion guards
ahead of `determine_next_agent`. -/
def after_trainer (state : State) : Dest :=
  if state.session_complete then Dest.completion
  else if state.awaiting_user_input then Dest.human
  else agentDest (determine_next_agent state)

/-! ## Python values and conversions

Raw values appearing in LLM-extracted dicts and in the food catalog JSON.
`vfloat` carries a rational: Python float arithmetic in this code is only
compared and rounded, which the rational model reproduces on all inputs the
claims touch. -/

inductive PyVal where
  | vint (n : Int)
  | vfloat (q : ℚ)
  | vstr (s : String)
  | vbool (b : Bool)
  | vnone
  deriving DecidableEq, Repr

def digitsVal (l : List Char) : Nat :=
  l.foldl (fun a c => a * 10 + (c.toNat - 48)) 0

/-- Python `int(s)` on a string: strip, optional sign, decimal digits. -/
def parsePyInt (s : String) : Option Int :=
  match (stripStr s).data with
  | [] => none
  | '-' :: ds =>
      if ds ≠ [] ∧ ds.all Char.isDigit then some (-(digitsVal ds : Int)) else none
  | '+' :: ds =>
      if ds ≠ [] ∧ ds.all Char.isDigit then some (digitsVal ds : Int) else none
  | ds => if ds.all Char.isDigit then some (digitsVal ds : Int) else none

/-- Digits with an optional single decimal point (the decimal forms of
Python `float(s)`; scientific notation is never fed by this program). -/
def parseFracDigits (l : List Char) : Option ℚ :=
  let ip := l.takeWhile Char.isDigit
  let rest := l.dropWhile Char.isDigit
  match rest with
  | [] => if ip ≠ [] then some (digitsVal ip : ℚ) else none
  | '.' :: fs =>
      if fs.all Char.isDigit ∧ (ip ≠ [] ∨ fs ≠ []) then
        some ((digitsVal ip : ℚ) + (digitsVal fs : ℚ) / (10 : ℚ) ^ fs.length)
      else none
  | _ => none

def parsePyFloat (s : String) : Option ℚ :=
  match (stripStr s).data with
  | '-' :: rest => (parseFracDigits rest).map (fun q => -q)
  | '+' :: rest => parseFracDigits rest
  | l => parseFracDigits l

/-- Truncation toward zero, as Python `int(float)` (`Int.div` is
T-division). -/
def ratTrunc (q : ℚ) : Int :=
  Int.tdiv q.num (q.den : Int)

/-- Python `int(x)`; `none` models the raised `ValueError`/`TypeError`. -/
def pyToInt : PyVal → Option Int
  | PyVal.vint n => some n
  | PyVal.vfloat q => some (ratTrunc q)
  | PyVal.vstr s => parsePyInt s
  | PyVal.vbool b => some (if b then 1 else 0)
  | PyVal.vnone => none

/-- Python `float(x)`; `none` models the raised `ValueError`/`TypeError`. -/
def pyToFloat : PyVal → Option ℚ
  | PyVal.vint n => some (n : ℚ)
  | PyVal.vfloat q => some q
  | PyVal.vstr s => parsePyFloat s
  | PyVal.vbool b => some (if b then 1 else 0)
  | PyVal.vnone => none

/-- Python `str(x).lower()`. The repr of a float value is abstracted to a
marker string built from digits and punctuation; like every real float repr
it lies outside all keyword sets this program compares against. -/
def pyStrLower : PyVal → String
  | PyVal.vint n => toString n
  | PyVal.vfloat q => "float(" ++ toString q.num ++ "/" ++ toString q.den ++ ")"
  | PyVal.vstr s => lowerStr s
  | PyVal.vbool b => if b then "true" else "false"
  | PyVal.vnone => "none"

/-- The floor of a rational (`Int.fdiv` is floor division; the denominator
is positive). -/
def ratFloor (q : ℚ) : Int :=
  Int.fdiv q.num (q.den : Int)

/-- Python rounding: round-half-to-even to an integer. -/
def pyRound (q : ℚ) : Int :=
  let f := ratFloor q
  let frac := q - (f : ℚ)
  if frac < 1/2 then f
  else if 1/2 < frac then f + 1
  else if f % 2 = 0 then f else f + 1

/-- Python `round(q, n)`. -/
def pyRoundTo (q : ℚ) (n : Nat) : ℚ :=
  (pyRound (q * (10 : ℚ) ^ n) : ℚ) / (10 : ℚ) ^ n

/-! ## Profile validation (`agents/trainer.py` lines 223-273) -/

/-- The LLM-extracted profile dict handed to `_validate_profile_data`
(only the six keys the function reads are relevant; anything else is
dropped by validation). -/
structure RawProfile where
  age : Option PyVal := none
  sex : Option PyVal := none
  height_cm : Option PyVal := none
  weight_kg : Option PyVal := none
  activity_level : Option PyVal := none
  first_meal : Option PyVal := none
  deriving DecidableEq, Repr

def valid_levels : List String :=
  ["sedentary", "light", "moderate", "active", "very_active"]

def validate_profile_data (raw : RawProfile) : UserProfile where
  age :=
    match raw.age with
    | none => none
    | some v =>
      match pyToInt v with
      | none => none
      | some a => if 1 ≤ a ∧ a ≤ 120 then some a else none
  sex :=
    match raw.sex with
    | none => none
    | some v =>
      let s := pyStrLower v
      if ["male", "female"].contains s then some s else none
  height_cm :=
    match raw.height_cm with
    | none => none
    | some v =>
      match pyToFloat v with
      | none => none
      | some h => if 80 ≤ h ∧ h ≤ 250 then some h else none
  weight_kg :=
    match raw.weight_kg with
    | none => none
    | some v =>
      match pyToFloat v with
      | none => none
      | some w => if 20 ≤ w ∧ w ≤ 400 then some w else none
  activity_level :=
    match raw.activity_level with
    | none => none
    | some v =>
      let a := pyStrLower v
      if valid_levels.contains a then some a else none
  first_meal :=
    match raw.first_meal with
    | none => none
    | some (PyVal.vbool b) => some b
    | some v =>
      let s := pyStrLower v
      if ["true", "yes", "y", "first"].contains s then some true
      else if ["false", "no", "n", "not first"].contains s then some false
      else none
  dietary_restrictions := none
  health_goals := none

/-- Python dict merge `{**current, **cleaned}`: keys of `cleaned` override. -/
def overlay {A : Type} (a b : Option A) : Option A :=
  match a with
  | some x => some x
  | none => b

def mergeProfileDicts (current cleaned : UserProfile) : UserProfile where
  age := overlay cleaned.age current.age
  sex := overlay cleaned.sex current.sex
  height_cm := overlay cleaned.height_cm current.height_cm
  weight_kg := overlay cleaned.weight_kg current.weight_kg
  activity_level := overlay cleaned.activity_level current.activity_level
  first_meal := overlay cleaned.first_meal current.first_meal
  dietary_restrictions := overlay cleaned.dietary_restrictions current.dietary_restrictions
  health_goals := overlay cleaned.health_goals current.health_goals

/-! ## Trainer agent (`agents/trainer.py`) -/

def required_fields : List String :=
  ["age", "sex", "height_cm", "weight_kg", "activity_level", "first_meal"]

/-- List `missing_fields` (`agents/trainer.py` lines 56-57), in required order. -/
def missingFields (p : UserProfile) : List String :=
  (if p.age.isNone then ["age"] else [])
    ++ (if p.sex.isNone then ["sex"] else [])
    ++ (if p.height_cm.isNone then ["height_cm"] else [])
    ++ (if p.weight_kg.isNone then ["weight_kg"] else [])
    ++ (if p.activity_level.isNone then ["activity_level"] else [])
    ++ (if p.first_meal.isNone then ["first_meal"] else [])

/-- Python truthiness of the profile dict (`if not current_profile:`,
`if result.get("user_profile"):`). -/
def profileNonempty (p : UserProfile) : Bool :=
  p.age.isSome || p.sex.isSome || p.height_cm.isSome || p.weight_kg.isSome
    || p.activity_level.isSome || p.first_meal.isSome
    || p.dietary_restrictions.isSome || p.health_goals.isSome

/-- LLM reply schema requested by the profile-collection prompt
(`agents/trainer.py` lines 80-87); `none` = key absent from the JSON. -/
structure PCResult where
  message : Option String := none
  user_profile : Option RawProfile := none
  profile_complete : Option Bool := none
  current_phase : Option String := none
  awaiting_user_input : Option Bool := none
  food_request : Option String := none
  deriving DecidableEq, Repr

/-- LLM reply schema requested by the final-recommendation prompt
(`agents/trainer.py` lines 186-189). -/
structure RecResult where
  message : Option String := none
  final_recommendation : Option String := none
  can_eat_verdict : Option Bool := none
  deriving DecidableEq, Repr

/-- The dict returned by `trainer(state)`; `none` = key absent. -/
structure TrainerResult where
  message : Option String := none
  user_profile : Option UserProfile := none
  profile_complete : Option Bool := none
  current_phase : Option String := none
  awaiting_user_input : Option Bool := none
  awaiting_food_request : Option Bool := none
  food_request : Option String := none
  final_recommendation : Option String := none
  can_eat_verdict : Option Bool := none
  deriving DecidableEq, Repr

/-- Behavior `_handle_profile_collection` (`agents/trainer.py` lines 46-145).
`pcO` is the parsed LLM reply; `none` models the `except` path. The
conversation context and prompt strings only feed the LLM and are not
tracked. -/
def handle_profile_collection (pcO : Option PCResult)
    (current_profile : UserProfile) : TrainerResult :=
  match pcO with
  | some r =>
    { message := r.message
      user_profile :=
        match r.user_profile with
        | some rp =>
            some (mergeProfileDicts current_profile (validate_profile_data rp))
        | none => none
      profile_complete := r.profile_complete
      current_phase := r.current_phase
      awaiting_user_input := r.awaiting_user_input
      food_request := r.food_request }
  | none =>
    if !profileNonempty current_profile then
      { message := some "Hi there! I\x27m your fitness trainer lah! Let\x27s see if you can eat that food. First, tell me your age?"
        user_profile := some current_profile
        profile_complete := some false
        current_phase := some "profile_collection"
        awaiting_user_input := some true }
    else
      let missing := missingFields current_profile
      let question :=
        match missing.head? with
        | some "sex" => "Are you male or female?"
        | some "height_cm" => "What\x27s your height in cm?"
        | some "weight_kg" => "What\x27s your current weight in kg?"
        | some "activity_level" => "How active are you? (sedentary/light/moderate/active/very_active)"
        | some "first_meal" => "Is this your first meal of the day?"
        | _ => "Can you tell me more about yourself?"
      { message := some question
        user_profile := some current_profile
        profile_complete := some (missing.length == 0)
        current_phase := some "profile_collection"
        awaiting_user_input := some true }

/-- Behavior `_ask_for_food_request` (`agents/trainer.py` lines 148-159). -/
def ask_for_food_request (state : State) : TrainerResult :=
  let target_calories := (state.nutrition_profile.map
    (fun np => np.target_calories)).getD 2000
  { message := some ("Perfect! Now I know your nutritional needs - you should aim for about "
      ++ toString target_calories
      ++ " calories per day for weight loss. What food would you like me to analyze for you? For example, you can ask about apples, bananas, cappuccino, toast, ham, or cheese!")
    awaiting_user_input := some true
    awaiting_food_request := some true
    current_phase := some "food_request" }

/-- Behavior `_generate_final_recommendation` (`agents/trainer.py` lines 162-220).
`recO` is the parsed LLM reply; `none` models the `except` fallback. -/
def generate_final_recommendation (recO : Option RecResult)
    (state : State) : TrainerResult :=
  match recO with
  | some r =>
    { message := r.message
      final_recommendation := r.final_recommendation
      can_eat_verdict := r.can_eat_verdict }
  | none =>
    let target_cals := (state.nutrition_profile.map
      (fun np => np.target_calories)).getD 2000
    let food_cals := (state.food_analysis.map
      (fun fa => fa.total_calories)).getD 0
    let can_eat := decide ((food_cals : ℚ) ≤ (target_cals : ℚ) * 0.3)
    { message := some ("Based on your target of " ++ toString target_cals
        ++ " calories per day, this food has " ++ toString food_cals
        ++ " calories. "
        ++ (if can_eat then "Can eat lah!" else "Better reduce a bit lor."))
      final_recommendation := some ("Food analysis complete. "
        ++ (if can_eat then "Approved" else "Not recommended")
        ++ " based on calorie targets.")
      can_eat_verdict := some can_eat }

/-- Agent `trainer(state)` (`agents/trainer.py` lines 8-43). -/
def trainer_agent (pcO : Option PCResult) (recO : Option RecResult)
    (state : State) : TrainerResult :=
  let profile_complete := state.profile_complete
  let has_nutrition_profile := state.nutrition_profile.isSome
  let has_food_analysis := state.food_analysis.isSome
  let food_request := !((state.food_request.getD "") == "")
  if profile_complete && has_nutrition_profile && has_food_analysis
      && state.final_recommendation == "" then
    generate_final_recommendation recO state
  else if food_request && !has_food_analysis then
    { message := some "Let me get our food specialist to analyze that for you!"
      awaiting_user_input := some false }
  else if profile_complete && has_nutrition_profile && !food_request then
    ask_for_food_request state
  else
    handle_profile_collection pcO state.user_profile

def appendMessage (msgs : List Message) (role : Role)
    (m : Option String) : List Message :=
  if (m.getD "") ≠ "" then
    msgs ++ [{ role := role, content := m.getD "", timestamp := none }]
  else msgs

/-- Node `trainer_node` (`nodes.py` lines 112-151): the partial update built from
the trainer result. Note the returned `awaiting_food_request` /
`food_request` keys of the trainer result are not propagated. -/
def trainer_node_update (result : TrainerResult) (state : State) : Update :=
  let base : Update :=
    { messages := some (appendMessage state.messages Role.trainer result.message)
      awaiting_user_input := some (result.awaiting_user_input.getD false) }
  let u1 :=
    if (match result.user_profile with
        | some p => profileNonempty p
        | none => false) then
      { base with
          user_profile := result.user_profile
          profile_complete := some (result.profile_complete.getD false) }
    else base
  let u2 :=
    if (result.current_phase.getD "") ≠ "" then
      { u1 with current_phase := result.current_phase }
    else u1
  if (result.final_recommendation.getD "") ≠ "" then
    { u2 with
        final_recommendation := result.final_recommendation
        can_eat_verdict := some (result.can_eat_verdict.getD false)
        session_complete := some true }
  else u2

def trainer_step (pcO : Option PCResult) (recO : Option RecResult)
    (state : State) : State :=
  mergeUpdate state (trainer_node_update (trainer_agent pcO recO state) state)

/-! ## Nutritionist metrics (`agents/nutritionist.py` lines 28-81, 170-191) -/

/-- Classifier `_get_bmi_class` (`agents/nutritionist.py` lines 170-179). -/
def get_bmi_class (bmi : ℚ) : String :=
  if bmi < 18.5 then "underweight"
  else if bmi < 25 then "normal"
  else if bmi < 30 then "overweight"
  else "obese"

/-- Table `_get_activity_multiplier` (`agents/nutritionist.py` lines 182-191);
`dict.get(level, 1.2)` defaults for anything outside the table. -/
def get_activity_multiplier (level : PyVal) : ℚ :=
  if level = PyVal.vstr "sedentary" then 1.2
  else if level = PyVal.vstr "light" then 1.375
  else if level = PyVal.vstr "moderate" then 1.55
  else if level = PyVal.vstr "active" then 1.725
  else if level = PyVal.vstr "very_active" then 1.9
  else 1.2

/-- The fallback profile of `_calculate_basic_metrics`
(`agents/nutritionist.py` lines 71-81). -/
def fallback_nutrition : NutritionProfile where
  bmi := 22.0
  bmi_class := "normal"
  bmr := 1500.0
  tdee := 1800.0
  target_calories := 1300
  recommended_macros :=
    [("protein_g", 100.0), ("carbs_g", 130.0), ("fat_g", 43.0)]
  health_assessment := "Unable to calculate precise metrics due to missing data."

def bmrOf (weight height : ℚ) (age : Int) (sex : PyVal) : ℚ :=
  if sex = PyVal.vstr "male" then
    10 * weight + 6.25 * ((height / 100) * 100) - 5 * (age : ℚ) + 5
  else
    10 * weight + 6.25 * ((height / 100) * 100) - 5 * (age : ℚ) - 161

def tdeeOf (weight height : ℚ) (age : Int) (sex activity : PyVal) : ℚ :=
  bmrOf weight height age sex * get_activity_multiplier activity

/-- Metrics `_calculate_basic_metrics` (`agents/nutritionist.py` lines 28-81).
The profile is an arbitrary dict; a missing key (`KeyError`) or failing
`int`/`float` conversion (`ValueError`/`TypeError`) is caught and yields the
fallback. A complete, convertible profile with `height_cm = 0` divides by
zero at the BMI computation; `ZeroDivisionError` is not in the caught
exception tuple, so it escapes: modelled as `Except.error ()`. -/
def calculate_basic_metrics (profile : RawProfile) :
    Except Unit NutritionProfile :=
  match profile.weight_kg with
  | none => Except.ok fallback_nutrition
  | some wv =>
    match pyToFloat wv with
    | none => Except.ok fallback_nutrition
    | some weight =>
      match profile.height_cm with
      | none => Except.ok fallback_nutrition
      | some hv =>
        match pyToFloat hv with
        | none => Except.ok fallback_nutrition
        | some height =>
          match profile.age with
          | none => Except.ok fallback_nutrition
          | some av =>
            match pyToInt av with
            | none => Except.ok fallback_nutrition
            | some age =>
              match profile.sex with
              | none => Except.ok fallback_nutrition
              | some sex =>
                match profile.activity_level with
                | none => Except.ok fallback_nutrition
                | some activity_level =>
                  if height = 0 then Except.error ()
                  else
                    let height_m := height / 100
                    let bmi := pyRoundTo (weight / height_m ^ 2) 2
                    let bmr := bmrOf weight height age sex
                    let tdee := tdeeOf weight height age sex activity_level
                    let target_calories := max (pyRound (tdee - 500)) 1200
                    Except.ok
                      { bmi := bmi
                        bmi_class := get_bmi_class bmi
                        bmr := pyRoundTo bmr 1
                        tdee := pyRoundTo tdee 1
                        target_calories := target_calories
                        recommended_macros :=
                          [("protein_g", pyRoundTo (weight * 1.6) 1),
                           ("carbs_g", pyRoundTo ((target_calories : ℚ) * 0.4 / 4) 1),
                           ("fat_g", pyRoundTo ((target_calories : ℚ) * 0.3 / 9) 1)]
                        health_assessment := "" }

/-- The dict returned by `nutritionist(state)` as consumed by
`nutritionist_node`; `none` on `nutrition_profile` covers key absence
(the node then falls back to the stored value). -/
structure NutritionistResult where
  message : Option String := none
  nutrition_profile : Option NutritionProfile := none
  deriving DecidableEq, Repr

/-- Node `nutritionist_node` (`nodes.py` lines 154-177). -/
def nutritionist_node_update (result : NutritionistResult)
    (state : State) : Update :=
  { messages := some (appendMessage state.messages Role.nutritionist result.message)
    nutrition_profile := some (overlay result.nutrition_profile state.nutrition_profile)
    current_phase := some "nutrition_analysis"
    awaiting_user_input := some false }

def nutritionist_step (result : NutritionistResult) (state : State) : State :=
  mergeUpdate state (nutritionist_node_update result state)

/-! ## Food specialist (`agents/food_specialist.py`, `nodes.py` lines 180-204) -/

structure FoodSpecialistResult where
  message : Option String := none
  food_analysis : Option FoodAnalysis := none
  deriving DecidableEq, Repr

/-- The fallback analysis of `_generate_complete_food_analysis`
(`agents/food_specialist.py` lines 112-130). -/
def fallback_food_analysis (food_request : String) : FoodAnalysis where
  food_item := food_request
  quantity := food_request
  calories_per_unit := 100
  total_calories := 100
  macros := [("protein_g", 5.0), ("carbs_g", 15.0), ("fat_g", 3.0),
             ("fiber_g", 2.0), ("sugar_g", 8.0)]
  nutritional_notes := "Estimated nutritional content for " ++ food_request
    ++ ". Approximately 100 calories."
  health_impact := "Moderate caloric impact. Consider portion size and daily intake balance."

/-- Agent `food_specialist(state)` (`agents/food_specialist.py` lines 8-143).
`llmO` is the analysis assembled from the parsed LLM reply (defaults
already folded in); `none` models the `except` fallback. -/
def food_specialist_agent (llmO : Option FoodAnalysis)
    (state : State) : FoodSpecialistResult :=
  let food_request := state.food_request.getD ""
  if food_request == "" then
    { message := some "I need to know what food you want to analyze! Please tell me what you\x27d like to eat."
      food_analysis := none }
  else
    match llmO with
    | some fa =>
      { message := some ("Complete nutritional analysis for " ++ food_request ++ ".")
        food_analysis := some fa }
    | none =>
      { message := some ("Food analysis for " ++ food_request
          ++ ": Estimated 100 calories. This is a general estimate - actual values may vary based on preparation and portion size.")
        food_analysis := some (fallback_food_analysis food_request) }

/-- Node `food_specialist_node` (`nodes.py` lines 180-204). -/
def food_specialist_node_update (result : FoodSpecialistResult)
    (state : State) : Update :=
  { messages := some (appendMessage state.messages Role.food_specialist result.message)
    food_analysis := some result.food_analysis
    current_phase := some "food_analysis"
    food_request_pending := some false
    awaiting_user_input := some false }

def food_specialist_step (result : FoodSpecialistResult) (state : State) : State :=
  mergeUpdate state (food_specialist_node_update result state)

/-- Node `completion_node` (`nodes.py` lines 207-217). -/
def completion_node_update : Update :=
  { session_complete := some true
    awaiting_user_input := some false }

/-! ## Knowledge lookup (`tools/food_db.py`) -/

structure TotalNutritionalContent where
  calories : Option PyVal := none
  deriving DecidableEq, Repr

structure EatenInfo where
  food_name_singular : Option String := none
  food_name_plural : Option String := none
  total_nutritional_content : Option TotalNutritionalContent := none
  deriving DecidableEq, Repr

structure FoodItem where
  food_entry_name : Option String := none
  eaten : Option EatenInfo := none
  deriving DecidableEq, Repr

/-- One clause of the match test: `v == name_l or name_l in v or v in name_l`. -/
def name_matches (name_l v : String) : Bool :=
  v == name_l || strIn name_l v || strIn v name_l

/-- The per-item test of the `find_match` loop body
(`tools/food_db.py` lines 23-31). -/
def item_matches (name_l : String) (item : FoodItem) : Bool :=
  let entry := lowerStr (item.food_entry_name.getD "")
  if name_matches name_l entry then true
  else
    let eaten := item.eaten.getD {}
    [eaten.food_name_singular, eaten.food_name_plural].any (fun vo =>
      let v := lowerStr (vo.getD "")
      v ≠ "" && name_matches name_l v)

/-- Scan `FoodDB.find_match` (`tools/food_db.py` lines 21-32): scan the catalog
in order, return the first matching entry. -/
def find_match : List FoodItem → String → Option FoodItem
  | [], _ => none
  | item :: rest, name_l =>
      if item_matches name_l item then some item else find_match rest name_l

def is_word_char (c : Char) : Bool :=
  c.isAlphanum || c == '_' || isWsChar c || c == '-'

/-- The quantity/item split done by
`re.match(r"\s*(\d+)\s+([\w\s\-]+)\s*$", text.strip())`
(`tools/food_db.py` lines 35-39): on the stripped text, a leading digit run
followed by whitespace and a remainder made only of word
characters/whitespace/hyphens yields `(int(digits), remainder.strip())`;
anything else yields quantity 1 and the stripped text. -/
def parse_qty_item (text : String) : Nat × String :=
  let t := stripStr text
  let ds := t.data.takeWhile Char.isDigit
  let rest := t.data.dropWhile Char.isDigit
  let ws := rest.takeWhile isWsChar
  let body := rest.dropWhile isWsChar
  if ds ≠ [] ∧ ws ≠ [] ∧ body ≠ [] ∧ body.all is_word_char then
    (digitsVal ds, ⟨body⟩)
  else
    (1, t)

/-- Lookup `FoodDB.calories_for` (`tools/food_db.py` lines 34-50). `none` for the
calorie field models both an absent key (`float(None)` raises `TypeError`)
and a failing conversion; both are caught and return `None`. -/
def calories_for (items : List FoodItem) (text : String) :
    Option (Int × String) :=
  let qi := parse_qty_item text
  match find_match items (lowerStr qi.2) with
  | none => none
  | some m =>
    let eaten := m.eaten.getD {}
    let tn := eaten.total_nutritional_content.getD {}
    match tn.calories with
    | none => none
    | some cv =>
      match pyToFloat cv with
      | none => none
      | some per_unit =>
          some (pyRound ((qi.1 : ℚ) * per_unit), m.food_entry_name.getD qi.2)

/-! ## Executor steps (for history monotonicity)

One step of the `WorkflowGraph` loop: a node runs (its capability result is
a parameter, covering every possible LLM reply and fallback) and the
executor merges the returned partial update. -/

inductive NodeStep where
  | human (rawInput : String)
  | trainer (result : TrainerResult)
  | nutritionist (result : NutritionistResult)
  | food_specialist (result : FoodSpecialistResult)
  | completion

def run_step : NodeStep → State → State
  | NodeStep.human raw, s => human_step raw s
  | NodeStep.trainer r, s => mergeUpdate s (trainer_node_update r s)
  | NodeStep.nutritionist r, s => nutritionist_step r s
  | NodeStep.food_specialist r, s => food_specialist_step r s
  | NodeStep.completion, s => mergeUpdate s completion_node_update

def run_steps : List NodeStep → State → State
  | [], s => s
  | st :: rest, s => run_steps rest (run_step st s)

/-! ## Derived profile completeness and reachable profiles (for C7) -/

/-- Flag `profile_complete` as the code derives it
(`agents/trainer.py` lines 56-57 and 142): no required field missing. -/
def profile_complete_derived (p : UserProfile) : Bool :=
  (missingFields p).length == 0

/-- All six required fields present. -/
def required_present (p : UserProfile) : Prop :=
  p.age.isSome = true ∧ p.sex.isSome = true ∧ p.height_cm.isSome = true
    ∧ p.weight_kg.isSome = true ∧ p.activity_level.isSome = true
    ∧ p.first_meal.isSome = true

/-- Every stored field individually satisfies its validation rule
(`_validate_profile_data` ranges; `first_meal` is a boolean by type). -/
def profile_fields_valid (p : UserProfile) : Prop :=
  (∀ a, p.age = some a → 1 ≤ a ∧ a ≤ 120)
    ∧ (∀ s, p.sex = some s → s = "male" ∨ s = "female")
    ∧ (∀ h, p.height_cm = some h → 80 ≤ h ∧ h ≤ 250)
    ∧ (∀ w, p.weight_kg = some w → 20 ≤ w ∧ w ≤ 400)
    ∧ (∀ a, p.activity_level = some a → a ∈ valid_levels)

/-- Profiles the session can actually hold: the profile starts empty
(`main.py`) and is only ever replaced by
`{**current_profile, **_validate_profile_data(raw)}`
(`agents/trainer.py` line 109, stored by `trainer_node`). -/
inductive ReachableProfile : UserProfile → Prop where
  | base : ReachableProfile {}
  | step (p : UserProfile) (raw : RawProfile) :
      ReachableProfile p →
      ReachableProfile (mergeProfileDicts p (validate_profile_data raw))

/-! ## RoutingPolicy guard chains as ordered rule lists (for C2) -/

/-- First-match-wins evaluation of an ordered guard list; the default is
the SuspensionBoundary (`human`). -/
def firstMatch : List (Bool × Agent) → Agent
  | [] => Agent.human
  | (c, a) :: rest => if c then a else firstMatch rest

/-- The guard chain exactly as claim C2 words it (no meal-planning guard). -/
def c2_claim_chain (s : State) : Agent :=
  let pc := s.profile_complete
  let nut := s.nutrition_profile.isSome
  let fr := !((s.food_request.getD "") == "")
  let fa := s.food_analysis.isSome
  firstMatch
    [(!pc, Agent.trainer),
     (pc && !nut, Agent.nutritionist),
     (nut && !fr && !s.awaiting_food_request, Agent.trainer),
     (fr && !fa, Agent.food_specialist),
     (fa && (s.final_recommendation == ""), Agent.trainer)]

/-- The guard chain amended with the meal-planning guard the code actually
has between the metric-computation and food-prompt guards
(`nodes.py` lines 88-93). -/
def c2_amended_chain (s : State) : Agent :=
  let pc := s.profile_complete
  let nut := s.nutrition_profile.isSome
  let fr := !((s.food_request.getD "") == "")
  let fa := s.food_analysis.isSome
  let mp := is_meal_planning_request (lowerStr s.current_user_input)
  firstMatch
    [(!pc, Agent.trainer),
     (pc && !nut, Agent.nutritionist),
     (pc && nut && mp, Agent.nutritionist),
     (nut && !fr && !s.awaiting_food_request, Agent.trainer),
     (fr && !fa, Agent.food_specialist),
     (fa && (s.final_recommendation == ""), Agent.trainer)]

/-- A state falsifying claim C2: profile and nutrition profile present, no
food request, not awaiting one, but the current input is a meal-planning
request. -/
def c2_cex : State :=
  { initial_state with
      profile_complete := true
      nutrition_profile := some fallback_nutrition
      current_user_input := "I need a meal plan" }

/-! ## Concrete inputs for the remaining claims -/

def c5_state : State :=
  { initial_state with
      messages := [{ role := Role.user, content := "hi", timestamp := none }] }

/-- A partial update naming `messages`, as any stage may produce. -/
def c5_update : Update := { messages := some [] }

def c9_cex : State := { initial_state with food_request := some "2 apples" }

/-- A complete, numerically convertible profile whose `height_cm` is `0`. -/
def c10_cex_raw : RawProfile :=
  { age := some (PyVal.vint 30), sex := some (PyVal.vstr "male")
    height_cm := some (PyVal.vint 0), weight_kg := some (PyVal.vint 70)
    activity_level := some (PyVal.vstr "moderate")
    first_meal := some (PyVal.vbool true) }

def c10_raw_ok : RawProfile :=
  { age := some (PyVal.vint 30), sex := some (PyVal.vstr "male")
    height_cm := some (PyVal.vint 175), weight_kg := some (PyVal.vint 70)
    activity_level := some (PyVal.vstr "moderate")
    first_meal := some (PyVal.vbool true) }

/-- The single-entry catalog of claim C8: canonical name `banana`,
89 calories per unit. -/
def c8_banana : FoodItem :=
  { food_entry_name := some "banana"
    eaten := some
      { food_name_singular := some "banana"
        food_name_plural := some "bananas"
        total_nutritional_content := some { calories := some (PyVal.vint 89) } } }

/-! ## Helper lemmas -/

theorem appendMessage_length_le (msgs : List Message) (role : Role)
    (m : Option String) : msgs.length ≤ (appendMessage msgs role m).length := by
  unfold appendMessage
  split
  · simp
  · exact le_refl _

theorem overlay_eq_some {A : Type} {a b : Option A} {x : A}
    (h : overlay a b = some x) : a = some x ∨ b = some x := by
  cases a with
  | none => right; simpa [overlay] using h
  | some y => left; simpa [overlay] using h

theorem run_step_messages_le (st : NodeStep) (s : State) :
    s.messages.length ≤ (run_step st s).messages.length := by
  cases st with
  | human raw =>
    unfold run_step human_step human_node_update mergeUpdate
    dsimp only
    split
    · simp
    · simp
  | trainer r =>
    unfold run_step trainer_node_update mergeUpdate
    dsimp only
    split
    · split
      · split <;> simpa using appendMessage_length_le s.messages Role.trainer r.message
      · split <;> simpa using appendMessage_length_le s.messages Role.trainer r.message
    · split
      · split <;> simpa using appendMessage_length_le s.messages Role.trainer r.message
      · split <;> simpa using appendMessage_length_le s.messages Role.trainer r.message
  | nutritionist r =>
    unfold run_step nutritionist_step nutritionist_node_update mergeUpdate
    simpa using appendMessage_length_le s.messages Role.nutritionist r.message
  | food_specialist r =>
    unfold run_step food_specialist_step food_specialist_node_update mergeUpdate
    simpa using appendMessage_length_le s.messages Role.food_specialist r.message
  | completion =>
    unfold run_step completion_node_update mergeUpdate
    simp

/-! ## Claim theorems -/

/-- C1: whenever `session_complete` is false and `awaiting_user_input` is
true, the routing function evaluated after a stage (`after_trainer`)
returns the suspension boundary `human`, whatever the rest of the state
holds; the guard precedes every `determine_next_agent` guard. -/
theorem routing_awaiting_goes_to_human (s : State)
    (h1 : s.session_complete = false) (h2 : s.awaiting_user_input = true) :
    after_trainer s = Dest.human := by
  simp [after_trainer, h1, h2]

theorem routing_awaiting_goes_to_human_witness :
    after_trainer { initial_state with awaiting_user_input := true } = Dest.human :=
  routing_awaiting_goes_to_human _ rfl rfl

/-- C4: an input whose lowercased, trimmed form is a termination token makes
`human_node` return only `{current_user_input, session_complete := true,
awaiting_user_input := false}`: the merged state keeps every other field,
in particular `messages` and `food_request`, unchanged. -/
theorem termination_token_ends_session (rawInput : String) (s : State)
    (h : exit_tokens.contains (lowerStr (stripStr rawInput)) = true) :
    human_step rawInput s =
      { s with
          current_user_input := stripStr rawInput
          session_complete := true
          awaiting_user_input := false } := by
  have h' : lowerStr (stripStr rawInput) ∈ exit_tokens := by simpa using h
  cases s
  simp [human_step, human_node_update, mergeUpdate, h']

theorem termination_token_ends_session_witness :
    human_step " QUIT " initial_state =
      { initial_state with
          current_user_input := stripStr " QUIT "
          session_complete := true
          awaiting_user_input := false } :=
  termination_token_ends_session " QUIT " initial_state (by decide)

/-- C5 (amended): the executor merge overwrites every field named by an
update, `messages` included; each node returns the old history with its new
entries appended, so the history length is non-decreasing across any
sequence of node steps. -/
theorem history_length_non_decreasing (steps : List NodeStep) (s : State) :
    s.messages.length ≤ (run_steps steps s).messages.length := by
  induction steps generalizing s with
  | nil => exact le_refl _
  | cons st rest ih =>
    exact le_trans (run_step_messages_le st s) (ih (run_step st s))

/-- C5 counterexample: the merge does not concatenate `history`; an update
naming `messages` replaces it, so a shorter list truncates the history. -/
theorem merge_truncates_history :
    (mergeUpdate c5_state c5_update).messages.length < c5_state.messages.length := by
  decide

/-- C9 (amended): once `food_request` holds a (non-empty) request the
suspension boundary never overwrites it, and the food-specialist step
clears the `food_request_pending` flag while leaving `food_request` itself
set (it is never cleared). -/
theorem food_request_preserved_and_pending_cleared :
    (∀ (rawInput : String) (s : State) (r : String),
        s.food_request = some r → r ≠ "" →
        (human_step rawInput s).food_request = some r)
      ∧ (∀ (res : FoodSpecialistResult) (s : State),
        (food_specialist_step res s).food_request_pending = false
          ∧ (food_specialist_step res s).food_request = s.food_request) := by
  constructor
  · intro rawInput s r hset hne
    have hbeq : ((s.food_request.getD "") == "") = false := by
      rw [hset]
      simpa using hne
    unfold human_step human_node_update mergeUpdate
    dsimp only
    split
    · simpa using hset
    · simp [hset]
      intro _ hr
      exact absurd hr hne
  · intro res s
    constructor <;>
      simp [food_specialist_step, food_specialist_node_update, mergeUpdate]

theorem food_request_preserved_witness :
    (human_step "hello there" c9_cex).food_request = some "2 apples" :=
  food_request_preserved_and_pending_cleared.1 "hello there" c9_cex
    "2 apples" rfl (by decide)

/-- C9 counterexample: producing the food analysis does not clear the
request: after the food-specialist step on a state with a pending
`food_request`, the analysis is present and `food_request` is still set. -/
theorem food_request_survives_analysis :
    (food_specialist_step (food_specialist_agent none c9_cex) c9_cex).food_analysis.isSome = true
      ∧ (food_specialist_step (food_specialist_agent none c9_cex) c9_cex).food_request
          = some "2 apples" := by
  constructor <;> rfl

/-- C3: for a non-terminating input, classification as a food request is
exactly (consumption phrase present ∧ specific food term present) ∨
numeral-adjacency pattern present, on the lowercased text; a classified
input with no pending request is stored in `food_request`; and the three
reference inputs classify as the claim states. -/
theorem food_request_classification (rawInput : String) (s : State)
    (hexit : exit_tokens.contains (lowerStr (stripStr rawInput)) = false) :
    (is_food_request_input (stripStr rawInput) =
        ((has_consumption_intent (stripStr rawInput)
            && has_specific_food (stripStr rawInput))
          || numeral_adjacency (stripStr rawInput)))
      ∧ (is_food_request_input (stripStr rawInput) = true →
          s.food_request = none →
          (human_step rawInput s).food_request = some (stripStr rawInput))
      ∧ is_food_request_input "2 apples" = true
      ∧ is_food_request_input "I love apples" = false
      ∧ is_food_request_input "can I eat a banana" = true := by
  refine ⟨rfl, ?_, by decide, by decide, by decide⟩
  intro hfood hnone
  unfold human_step human_node_update mergeUpdate
  dsimp only
  split
  · next hcond => rw [hexit] at hcond; cases hcond
  · simp [hfood, hnone]

theorem food_request_classification_witness :
    (human_step "2 apples" initial_state).food_request = some (stripStr "2 apples") :=
  (food_request_classification "2 apples" initial_state (by decide)).2.1
    (by decide) rfl

/-- Projection of the `final_recommendation` key of a trainer-node update. -/
theorem trainer_node_update_final_eq (r : TrainerResult) (s : State) :
    (trainer_node_update r s).final_recommendation =
      if (r.final_recommendation.getD "") ≠ "" then r.final_recommendation
      else none := by
  unfold trainer_node_update
  dsimp only
  split
  · rfl
  · split
    · split <;> rfl
    · split <;> rfl

/-- Projection of the `session_complete` key of a trainer-node update. -/
theorem trainer_node_update_sc_eq (r : TrainerResult) (s : State) :
    (trainer_node_update r s).session_complete =
      if (r.final_recommendation.getD "") ≠ "" then some true
      else none := by
  unfold trainer_node_update
  dsimp only
  split
  · rfl
  · split
    · split <;> rfl
    · split <;> rfl

/-- With `final_recommendation` already set, every `trainer(state)` branch
returns a dict without a `final_recommendation` key. -/
theorem trainer_agent_no_final (pcO : Option PCResult) (recO : Option RecResult)
    (s : State) (hne : s.final_recommendation ≠ "") :
    (trainer_agent pcO recO s).final_recommendation = none := by
  have hb : (s.final_recommendation == "") = false := by simpa using hne
  unfold trainer_agent
  dsimp only
  rw [hb]
  simp only [Bool.and_false, if_false, Bool.false_eq_true]
  split
  · rfl
  · split
    · rfl
    · unfold handle_profile_collection
      cases pcO with
      | some r => rfl
      | none =>
        dsimp only
        split <;> rfl

/-- C6: a trainer update carrying `final_recommendation` always carries
`session_complete = true` into the merged state, and when the state already
holds a final recommendation the trainer step leaves it unchanged (no
regeneration). -/
theorem final_recommendation_once (s : State) (r : TrainerResult)
    (pcO : Option PCResult) (recO : Option RecResult) :
    ((trainer_node_update r s).final_recommendation.isSome = true →
        (mergeUpdate s (trainer_node_update r s)).session_complete = true)
      ∧ (s.final_recommendation ≠ "" →
        (trainer_step pcO recO s).final_recommendation = s.final_recommendation) := by
  constructor
  · intro hset
    have hsc := trainer_node_update_sc_eq r s
    by_cases hc : (r.final_recommendation.getD "") ≠ ""
    · rw [if_pos hc] at hsc
      simp [mergeUpdate, hsc]
    · have hfin := trainer_node_update_final_eq r s
      simp only [hc, if_false] at hfin
      rw [hfin] at hset
      cases hset
  · intro hne
    have hagent := trainer_agent_no_final pcO recO s hne
    unfold trainer_step
    have hfin := trainer_node_update_final_eq (trainer_agent pcO recO s) s
    rw [hagent] at hfin
    simp only [Option.getD_none, ne_eq, not_true_eq_false, if_false] at hfin
    simp [mergeUpdate, hfin]

theorem final_recommendation_once_witness :
    (mergeUpdate { initial_state with final_recommendation := "done" }
        (trainer_node_update { final_recommendation := some "ok" }
          { initial_state with final_recommendation := "done" })).session_complete = true
      ∧ (trainer_step none none
          { initial_state with final_recommendation := "done" }).final_recommendation
            = "done" :=
  ⟨(final_recommendation_once { initial_state with final_recommendation := "done" }
      { final_recommendation := some "ok" } none none).1 (by decide),
   (final_recommendation_once { initial_state with final_recommendation := "done" }
      { final_recommendation := some "ok" } none none).2 (by decide)⟩

/-- C2 counterexample: on a state with a complete profile, a nutrition
profile, no food request, and a meal-planning input, the guard chain as the
claim words it says `trainer` (food prompt), but the code routes to
`nutritionist` through its meal-planning guard. -/
theorem routing_chain_missing_meal_planning_guard :
    c2_claim_chain c2_cex = Agent.trainer
      ∧ determine_next_agent c2_cex = Agent.nutritionist := by
  constructor <;> rfl

/-- C2 (amended): `determine_next_agent` equals, on every state, the
first-match guard chain of the claim with the meal-planning guard
(`profileComplete ∧ nutritionProfile present ∧ meal-planning input →
nutritionist`) inserted after the metric-computation guard; the default is
`human`, so the function is total. -/
theorem routing_follows_amended_guard_chain (s : State) :
    determine_next_agent s = c2_amended_chain s := by
  cases hpc : s.profile_complete <;>
    cases hnut : s.nutrition_profile.isSome <;>
      cases hmp : is_meal_planning_request (lowerStr s.current_user_input) <;>
        cases hfr : ((s.food_request.getD "") == "") <;>
          cases hafr : s.awaiting_food_request <;>
            cases hfa : s.food_analysis.isSome <;>
              cases hfin : (s.final_recommendation == "") <;>
                simp [determine_next_agent, c2_amended_chain, firstMatch,
                  hpc, hnut, hmp, hfr, hafr, hfa, hfin]

/-- Every field `_validate_profile_data` emits satisfies its own range
check. -/
theorem validate_profile_fields_valid (raw : RawProfile) :
    profile_fields_valid (validate_profile_data raw) := by
  refine ⟨?_, ?_, ?_, ?_, ?_⟩
  · intro a ha
    dsimp only [validate_profile_data] at ha
    split at ha
    · cases ha
    · split at ha
      · cases ha
      · split at ha
        · next h => cases ha; exact h
        · cases ha
  · intro x hx
    dsimp only [validate_profile_data] at hx
    split at hx
    · cases hx
    · split at hx
      · next h => cases hx; simpa using h
      · cases hx
  · intro h hh
    dsimp only [validate_profile_data] at hh
    split at hh
    · cases hh
    · split at hh
      · cases hh
      · split at hh
        · next hc => cases hh; exact hc
        · cases hh
  · intro w hw
    dsimp only [validate_profile_data] at hw
    split at hw
    · cases hw
    · split at hw
      · cases hw
      · split at hw
        · next hc => cases hw; exact hc
        · cases hw
  · intro x hx
    dsimp only [validate_profile_data] at hx
    split at hx
    · cases hx
    · split at hx
      · next h => cases hx; simpa using h
      · cases hx

theorem empty_profile_fields_valid : profile_fields_valid {} := by
  refine ⟨?_, ?_, ?_, ?_, ?_⟩ <;> intro x hx <;> cases hx

theorem merge_profile_fields_valid (current cleaned : UserProfile)
    (hc : profile_fields_valid current) (hk : profile_fields_valid cleaned) :
    profile_fields_valid (mergeProfileDicts current cleaned) := by
  obtain ⟨hc1, hc2, hc3, hc4, hc5⟩ := hc
  obtain ⟨hk1, hk2, hk3, hk4, hk5⟩ := hk
  refine ⟨?_, ?_, ?_, ?_, ?_⟩ <;> intro x hx <;>
    dsimp only [mergeProfileDicts] at hx
  · rcases overlay_eq_some hx with h | h
    · exact hk1 x h
    · exact hc1 x h
  · rcases overlay_eq_some hx with h | h
    · exact hk2 x h
    · exact hc2 x h
  · rcases overlay_eq_some hx with h | h
    · exact hk3 x h
    · exact hc3 x h
  · rcases overlay_eq_some hx with h | h
    · exact hk4 x h
    · exact hc4 x h
  · rcases overlay_eq_some hx with h | h
    · exact hk5 x h
    · exact hc5 x h

theorem reachable_fields_valid (p : UserProfile) (h : ReachableProfile p) :
    profile_fields_valid p := by
  induction h with
  | base => exact empty_profile_fields_valid
  | step p raw hp ih =>
    exact merge_profile_fields_valid p (validate_profile_data raw) ih
      (validate_profile_fields_valid raw)

theorem derived_iff_present (p : UserProfile) :
    profile_complete_derived p = true ↔ required_present p := by
  obtain ⟨a, s, h, w, act, fm, dr, hg⟩ := p
  cases a <;> cases s <;> cases h <;> cases w <;> cases act <;> cases fm <;>
    simp [profile_complete_derived, missingFields, required_present]

/-- C7: on every profile the session can reach (empty at start, then only
replaced by validated merges), the derived completeness flag is true iff
all six required fields are present, and every present field passed its
range validation; the deterministic trainer fallback stores exactly this
derived flag. -/
theorem profile_complete_iff_valid (p : UserProfile)
    (hreach : ReachableProfile p) :
    (profile_complete_derived p = true ↔
        (required_present p ∧ profile_fields_valid p))
      ∧ (profileNonempty p = true →
        (handle_profile_collection none p).profile_complete
          = some (profile_complete_derived p)) := by
  constructor
  · constructor
    · intro hd
      exact ⟨(derived_iff_present p).mp hd, reachable_fields_valid p hreach⟩
    · intro hpv
      exact (derived_iff_present p).mpr hpv.1
  · intro hne
    unfold handle_profile_collection
    dsimp only
    rw [hne]
    rfl

theorem profile_complete_iff_valid_witness :
    let raw : RawProfile :=
      { age := some (PyVal.vint 30), sex := some (PyVal.vstr "male")
        height_cm := some (PyVal.vint 175), weight_kg := some (PyVal.vint 70)
        activity_level := some (PyVal.vstr "moderate")
        first_meal := some (PyVal.vbool true) }
    let p1 := mergeProfileDicts {} (validate_profile_data raw)
    (profile_complete_derived p1 = true ↔
        (required_present p1 ∧ profile_fields_valid p1))
      ∧ (handle_profile_collection none p1).profile_complete
          = some (profile_complete_derived p1) :=
  ⟨(profile_complete_iff_valid _
      (ReachableProfile.step {} _ ReachableProfile.base)).1,
   (profile_complete_iff_valid _
      (ReachableProfile.step {} _ ReachableProfile.base)).2 (by decide)⟩

/-- Rounding `pyRound` on an integer value is that integer. -/
theorem pyRound_intCast (n : Int) : pyRound ((n : ℚ)) = n := by
  unfold pyRound ratFloor
  dsimp only
  rw [Rat.num_intCast, Rat.den_intCast]
  norm_num [Int.fdiv_one]

/-- C8: the lookup parses a leading quantity (default 1), scans the catalog
in order returning the first match, multiplies and rounds the per-unit
calories, and reports not-found when no entry matches or the calorie field
is absent/non-numeric; on the one-entry banana catalog, `"3 banana"` gives
`(267, "banana")` and `"3 kumquats"` gives not-found. -/
theorem knowledge_lookup_contract :
    calories_for [c8_banana] "3 banana" = some (267, "banana")
      ∧ calories_for [c8_banana] "3 kumquats" = none
      ∧ (∀ (items : List FoodItem) (text : String),
          find_match items (lowerStr (parse_qty_item text).2) = none →
          calories_for items text = none)
      ∧ (∀ (items : List FoodItem) (text : String) (m : FoodItem) (per_unit : ℚ),
          find_match items (lowerStr (parse_qty_item text).2) = some m →
          (((m.eaten.getD {}).total_nutritional_content.getD {}).calories.bind
              pyToFloat) = some per_unit →
          calories_for items text =
            some (pyRound (((parse_qty_item text).1 : ℚ) * per_unit),
              m.food_entry_name.getD (parse_qty_item text).2))
      ∧ (∀ (items : List FoodItem) (text : String) (m : FoodItem),
          find_match items (lowerStr (parse_qty_item text).2) = some m →
          (((m.eaten.getD {}).total_nutritional_content.getD {}).calories.bind
              pyToFloat) = none →
          calories_for items text = none)
      ∧ (∀ (items : List FoodItem) (name_l : String),
          find_match items name_l = items.find? (item_matches name_l))
      ∧ (∀ text : String,
          (stripStr text).data.takeWhile Char.isDigit = [] →
          parse_qty_item text = (1, stripStr text)) := by
  refine ⟨?_, by decide, ?_, ?_, ?_, ?_, ?_⟩
  · have h1 : calories_for [c8_banana] "3 banana"
        = some (pyRound (((3 : Nat) : ℚ) * ((89 : Int) : ℚ)), "banana") := by rfl
    have h2 : ((3 : Nat) : ℚ) * ((89 : Int) : ℚ) = ((267 : Int) : ℚ) := by
      norm_num
    rw [h1, h2, pyRound_intCast]
  · intro items text h
    simp [calories_for, h]
  · intro items text m per_unit hfind hbind
    cases hc : ((m.eaten.getD {}).total_nutritional_content.getD {}).calories with
    | none => rw [hc] at hbind; cases hbind
    | some cv =>
      rw [hc] at hbind
      simp only [Option.some_bind] at hbind
      simp [calories_for, hfind, hc, hbind]
  · intro items text m hfind hbind
    cases hc : ((m.eaten.getD {}).total_nutritional_content.getD {}).calories with
    | none => simp [calories_for, hfind, hc]
    | some cv =>
      rw [hc] at hbind
      simp only [Option.some_bind] at hbind
      simp [calories_for, hfind, hc, hbind]
  · intro items name_l
    induction items with
    | nil => rfl
    | cons a l ih =>
      cases h : item_matches name_l a with
      | true => simp [find_match, h, List.find?_cons_of_pos]
      | false => simp [find_match, h, List.find?_cons_of_neg, ih]
  · intro text h
    simp [parse_qty_item, h]

theorem knowledge_lookup_contract_witness :
    calories_for [c8_banana] "3 kumquats" = none
      ∧ parse_qty_item "banana" = (1, stripStr "banana") :=
  ⟨knowledge_lookup_contract.2.2.1 [c8_banana] "3 kumquats" (by decide),
   knowledge_lookup_contract.2.2.2.2.2.2 "banana" (by decide)⟩

/-- C10 counterexample: a complete, numerically convertible profile with
`height_cm = 0` makes `_calculate_basic_metrics` raise (uncaught
`ZeroDivisionError`), so the stage does raise for some input profile. -/
theorem metrics_divide_by_zero :
    calculate_basic_metrics c10_cex_raw = Except.error () := by rfl

/-- C10 (amended): every profile the stage produces has
`target_calories ≥ 1200`; a missing or non-convertible field yields the
fallback profile with target 1300; the only raising input is a fully
convertible profile whose height converts to 0 (uncaught
`ZeroDivisionError`); and on a convertible profile with non-zero height
the target is `max(round(tdee − 500), 1200)`. -/
theorem nutrition_metrics_properties :
    (∀ (raw : RawProfile) (np : NutritionProfile),
        calculate_basic_metrics raw = Except.ok np →
        1200 ≤ np.target_calories)
      ∧ (∀ raw : RawProfile,
          calculate_basic_metrics raw = Except.error () →
          raw.height_cm.bind pyToFloat = some 0)
      ∧ (∀ raw : RawProfile, raw.weight_kg = none →
          calculate_basic_metrics raw = Except.ok fallback_nutrition)
      ∧ fallback_nutrition.target_calories = 1300
      ∧ (∀ (raw : RawProfile) (w h : ℚ) (a : Int) (sx av : PyVal),
          raw.weight_kg.bind pyToFloat = some w →
          raw.height_cm.bind pyToFloat = some h →
          raw.age.bind pyToInt = some a →
          raw.sex = some sx →
          raw.activity_level = some av →
          h ≠ 0 →
          ∃ np, calculate_basic_metrics raw = Except.ok np
            ∧ np.target_calories
                = max (pyRound (tdeeOf w h a sx av - 500)) 1200) := by
  refine ⟨?_, ?_, ?_, by rfl, ?_⟩
  · intro raw np hok
    unfold calculate_basic_metrics at hok
    cases hw : raw.weight_kg with
    | none => simp only [hw] at hok; cases hok; decide
    | some wv =>
      simp only [hw] at hok
      cases hwf : pyToFloat wv with
      | none => simp only [hwf] at hok; cases hok; decide
      | some w =>
        simp only [hwf] at hok
        cases hh : raw.height_cm with
        | none => simp only [hh] at hok; cases hok; decide
        | some hv =>
          simp only [hh] at hok
          cases hhf : pyToFloat hv with
          | none => simp only [hhf] at hok; cases hok; decide
          | some h =>
            simp only [hhf] at hok
            cases ha : raw.age with
            | none => simp only [ha] at hok; cases hok; decide
            | some av₀ =>
              simp only [ha] at hok
              cases haf : pyToInt av₀ with
              | none => simp only [haf] at hok; cases hok; decide
              | some a =>
                simp only [haf] at hok
                cases hs : raw.sex with
                | none => simp only [hs] at hok; cases hok; decide
                | some sx =>
                  simp only [hs] at hok
                  cases hal : raw.activity_level with
                  | none => simp only [hal] at hok; cases hok; decide
                  | some av =>
                    simp only [hal] at hok
                    by_cases hz : h = 0
                    · rw [if_pos hz] at hok; cases hok
                    · rw [if_neg hz] at hok
                      cases hok
                      exact le_max_right _ _
  · intro raw herr
    unfold calculate_basic_metrics at herr
    cases hw : raw.weight_kg with
    | none => simp only [hw] at herr; cases herr
    | some wv =>
      simp only [hw] at herr
      cases hwf : pyToFloat wv with
      | none => simp only [hwf] at herr; cases herr
      | some w =>
        simp only [hwf] at herr
        cases hh : raw.height_cm with
        | none => simp only [hh] at herr; cases herr
        | some hv =>
          simp only [hh] at herr
          cases hhf : pyToFloat hv with
          | none => simp only [hhf] at herr; cases herr
          | some h =>
            simp only [hhf] at herr
            cases ha : raw.age with
            | none => simp only [ha] at herr; cases herr
            | some av₀ =>
              simp only [ha] at herr
              cases haf : pyToInt av₀ with
              | none => simp only [haf] at herr; cases herr
              | some a =>
                simp only [haf] at herr
                cases hs : raw.sex with
                | none => simp only [hs] at herr; cases herr
                | some sx =>
                  simp only [hs] at herr
                  cases hal : raw.activity_level with
                  | none => simp only [hal] at herr; cases herr
                  | some av =>
                    simp only [hal] at herr
                    by_cases hz : h = 0
                    · simp only [Option.some_bind, hhf, hz]
                    · rw [if_neg hz] at herr; cases herr
  · intro raw hw
    unfold calculate_basic_metrics
    simp only [hw]
  · intro raw w h a sx av hwb hhb hab hs hal hz
    cases hw : raw.weight_kg with
    | none => rw [hw] at hwb; simp at hwb
    | some wv =>
      rw [hw] at hwb
      simp only [Option.some_bind] at hwb
      cases hh : raw.height_cm with
      | none => rw [hh] at hhb; simp at hhb
      | some hv =>
        rw [hh] at hhb
        simp only [Option.some_bind] at hhb
        cases ha : raw.age with
        | none => rw [ha] at hab; simp at hab
        | some av₀ =>
          rw [ha] at hab
          simp only [Option.some_bind] at hab
          have hcalc : calculate_basic_metrics raw
              = Except.ok
                  { bmi := pyRoundTo (w / (h / 100) ^ 2) 2
                    bmi_class := get_bmi_class (pyRoundTo (w / (h / 100) ^ 2) 2)
                    bmr := pyRoundTo (bmrOf w h a sx) 1
                    tdee := pyRoundTo (tdeeOf w h a sx av) 1
                    target_calories := max (pyRound (tdeeOf w h a sx av - 500)) 1200
                    recommended_macros :=
                      [("protein_g", pyRoundTo (w * 1.6) 1),
                       ("carbs_g", pyRoundTo
                         (((max (pyRound (tdeeOf w h a sx av - 500)) 1200 : Int) : ℚ) * 0.4 / 4) 1),
                       ("fat_g", pyRoundTo
                         (((max (pyRound (tdeeOf w h a sx av - 500)) 1200 : Int) : ℚ) * 0.3 / 9) 1)]
                    health_assessment := "" } := by
            unfold calculate_basic_metrics
            simp only [hw, hwb, hh, hhb, ha, hab, hs, hal, if_neg hz]
          exact ⟨_, hcalc, rfl⟩

theorem nutrition_metrics_properties_witness :
    calculate_basic_metrics {} = Except.ok fallback_nutrition
      ∧ (∃ np, calculate_basic_metrics c10_raw_ok = Except.ok np
          ∧ np.target_calories
              = max (pyRound (tdeeOf ((70 : Int) : ℚ) ((175 : Int) : ℚ) 30
                  (PyVal.vstr "male") (PyVal.vstr "moderate") - 500)) 1200) :=
  ⟨nutrition_metrics_properties.2.2.1 {} rfl,
   nutrition_metrics_properties.2.2.2.2 c10_raw_ok ((70 : Int) : ℚ)
     ((175 : Int) : ℚ) 30 (PyVal.vstr "male") (PyVal.vstr "moderate")
     rfl rfl rfl rfl rfl (by decide)⟩
